import Mathlib

/-
  Verification of `silent_sense.py` (radio-monitor).

  Shallow embedding of the monitor loop of `monitor_stream`, the probe
  classification, and the startup validation of `main`.  Audio levels (dB)
  and timestamps are modelled as rationals; machine floats only enter the
  claims through order comparisons at moderate magnitudes, which rationals
  reproduce exactly.  The wall clock (`time.time()`) is threaded explicitly:
  each loop iteration receives the timestamp `now` at which it runs.
-/

namespace SilentSense

/-- Status value sent to the Uptime Kuma push endpoint
    (`send_uptime_kuma_notification`, parameter `status`). -/
inductive Status where
  | up
  | down
deriving DecidableEq

/-- The branch of the `while True` loop body taken in one iteration of
    `monitor_stream`:
    * `parsed v` — `mean_volume_match` succeeded and `float(...)` = `v`
      (lines 122-165);
    * `parseMiss` — subprocess completed, no `mean_volume` in the output
      (lines 167-180);
    * `timeoutExpired` — `subprocess.TimeoutExpired` raised (lines 182-192);
    * `subprocessError` — `subprocess.SubprocessError` raised (lines 194-204);
    * `unexpectedError` — the generic `except Exception` branch
      (lines 206-208). -/
inductive LoopEvent where
  | parsed (mean_volume : ℚ)
  | parseMiss
  | timeoutExpired
  | subprocessError
  | unexpectedError
deriving DecidableEq

/-- Configuration of `monitor_stream` (its keyword parameters). -/
structure Config where
  silence_threshold_db : ℚ
  silence_timeout_seconds : ℚ
  check_interval_seconds : ℚ
deriving DecidableEq

/-- `max_consecutive_errors = 5`, line 92 of the source. -/
def max_consecutive_errors : Nat := 5

/-- The hard-coded `timeout=30` passed to `subprocess.run`, line 111. -/
def probe_timeout_seconds : ℚ := 30

/-- The mutable loop state of `monitor_stream`:
    `silence_start_time` (line 89), `is_silent` (line 90),
    `consecutive_errors` (line 91). -/
structure MonitorState where
  silence_start_time : Option ℚ
  is_silent : Bool
  consecutive_errors : Nat
deriving DecidableEq

/-- Initial state of the loop (lines 89-91). -/
def initState : MonitorState := ⟨none, false, 0⟩

/-- The escalation branches for `parseMiss` / `timeoutExpired` /
    `subprocessError` share this shape (lines 167-204):
    increment `consecutive_errors`; once it reaches
    `max_consecutive_errors` and `is_silent` is still false, set
    `is_silent` and send one "down" notification.  `silence_start_time`
    is never touched by these branches. -/
def escalateStep (st : MonitorState) : MonitorState × Option Status :=
  let e := st.consecutive_errors + 1
  if max_consecutive_errors ≤ e ∧ st.is_silent = false then
    (⟨st.silence_start_time, true, e⟩, some .down)
  else
    (⟨st.silence_start_time, st.is_silent, e⟩, none)

/-- One iteration of the loop body of `monitor_stream` (lines 94-211):
    given the configuration, the current state, the branch taken, and the
    current wall-clock time, return the next state and the notification
    status sent on this iteration, if any (each iteration calls
    `send_uptime_kuma_notification` at most once). -/
def monitorStep (cfg : Config) (st : MonitorState) (ev : LoopEvent) (now : ℚ) :
    MonitorState × Option Status :=
  match ev with
  | .parsed mean_volume =>
    -- line 125: consecutive_errors = 0
    if mean_volume < cfg.silence_threshold_db then
      -- lines 127-145
      let start := st.silence_start_time.getD now
      let silence_duration := now - start
      if cfg.silence_timeout_seconds ≤ silence_duration ∧ st.is_silent = false then
        (⟨some start, true, 0⟩, some .down)
      else
        (⟨some start, st.is_silent, 0⟩, none)
    else
      -- lines 146-165: audio present
      (⟨none, false, 0⟩, if st.is_silent then some .up else none)
  | .parseMiss => escalateStep st
  | .timeoutExpired => escalateStep st
  | .subprocessError => escalateStep st
  | .unexpectedError =>
    -- lines 206-208: count the error, send nothing
    (⟨st.silence_start_time, st.is_silent, st.consecutive_errors + 1⟩, none)

/-- Run of the monitor loop over a finite trace of iterations, each given
    by the branch taken and the wall-clock time of that iteration; returns
    the final state and the list of notification statuses sent, in order. -/
def monitorRun (cfg : Config) : MonitorState → List (LoopEvent × ℚ) →
    MonitorState × List Status
  | st, [] => (st, [])
  | st, (ev, now) :: rest =>
    let r := monitorStep cfg st ev now
    let rr := monitorRun cfg r.1 rest
    (rr.1, r.2.toList ++ rr.2)

/-- Outcome of the `subprocess.run(cmd, ..., timeout=30)` call as the loop
    body observes it (lines 107-120): either the process completed (with an
    exit code and with the result of `re.search` for `mean_volume` on its
    stderr, modelled as the parsed value when the pattern matched), or one
    of the two exceptions was raised. -/
inductive ProbeResult where
  | completed (returncode : Int) (mean_volume_match : Option ℚ)
  | timedOut
  | subprocessFailed
deriving DecidableEq

/-- Which branch of the loop body a probe outcome selects (lines 114-208):
    the code inspects only the regex match on stderr and the exception
    kind — `result.returncode` is never read. -/
def classifyProbe : ProbeResult → LoopEvent
  | .completed _ mv =>
    match mv with
    | some v => .parsed v
    | none => .parseMiss
  | .timedOut => .timeoutExpired
  | .subprocessFailed => .subprocessError

/-- Result of Python's `urlparse` as used by `validate_url`: the scheme and
    the network-location component of the URL string. -/
structure UrlParts where
  scheme : String
  netloc : String
deriving DecidableEq

/-- `validate_url` (lines 29-35):
    `all([result.scheme in ('http', 'https'), result.netloc])`. -/
def validate_url (u : UrlParts) : Bool :=
  (u.scheme == "http" || u.scheme == "https") && u.netloc != ""

/-- The parsed command-line arguments that the validation block of `main`
    reads (lines 276-297).  A `none` URL stands for the empty string
    (falsy in Python); `some u` for a non-empty string parsing to `u`. -/
structure Args where
  stream_url : Option UrlParts
  uptime_kuma_url : Option UrlParts
  threshold : ℚ
  timeout : ℚ
  check_interval : ℚ
deriving DecidableEq

/-- Outcome of the validation block: `exitErr` models `sys.exit(1)`;
    `proceed warned` models falling through to `monitor_stream(...)`,
    with `warned` recording whether the positive-threshold warning
    (lines 288-289) was logged. -/
inductive ValidateOutcome where
  | exitErr
  | proceed (warned : Bool)
deriving DecidableEq

/-- The `uptime_kuma_url and not validate_url(...)` test of line 284. -/
def kumaInvalid (a : Args) : Bool :=
  match a.uptime_kuma_url with
  | none => false
  | some k => !(validate_url k)

/-- The validation block of `main` (lines 276-297), in source order:
    missing stream URL, invalid stream URL, non-empty invalid Uptime Kuma
    URL, then (warning only) positive threshold, then non-positive timeout,
    then non-positive check interval. -/
def mainValidate (a : Args) : ValidateOutcome :=
  match a.stream_url with
  | none => .exitErr
  | some u =>
    if !(validate_url u) then .exitErr
    else if kumaInvalid a then .exitErr
    else if a.timeout ≤ 0 then .exitErr
    else if a.check_interval ≤ 0 then .exitErr
    else .proceed (decide (0 < a.threshold))

/-- A configuration used for the concrete scenarios below:
    threshold −60 dB, silence timeout 10 s, check interval 5 s
    (the worked example of the specification). -/
def cfgA : Config := ⟨-60, 10, 5⟩

/-- Trace of consecutive successfully-parsed readings of the constant
    value `v`, one per check interval `d`, the first at time 0. -/
def silentTrace (v d : ℚ) (N : Nat) : List (LoopEvent × ℚ) :=
  (List.range N).map (fun k : ℕ => (LoopEvent.parsed v, (k : ℚ) * d))

/-- Trace of parsed readings of the constant value `v` at the given times. -/
def belowTrace (v : ℚ) (ts : List ℚ) : List (LoopEvent × ℚ) :=
  ts.map (fun t => (LoopEvent.parsed v, t))

/-- Trace of parsed readings, one per pair `(value, time)`. -/
def readingTrace (ps : List (ℚ × ℚ)) : List (LoopEvent × ℚ) :=
  ps.map (fun p => (LoopEvent.parsed p.1, p.2))

/-- Trace of consecutive parse misses at the given times. -/
def missTrace (ts : List ℚ) : List (LoopEvent × ℚ) :=
  ts.map (fun t => (LoopEvent.parseMiss, t))

/-- Trace of consecutive generic unexpected errors at the given times. -/
def unexpectedTrace (ts : List ℚ) : List (LoopEvent × ℚ) :=
  ts.map (fun t => (LoopEvent.unexpectedError, t))

/-- Whether a loop event is a successfully-parsed loudness reading. -/
def isParsedReading : LoopEvent → Bool
  | .parsed _ => true
  | _ => false

/-- Whether, after the trace, the most recent successfully-parsed reading
    was strictly below the silence threshold; `b` is the value before the
    trace (`false` at process start, when no reading has been seen). -/
def lastBelow (cfg : Config) : Bool → List (LoopEvent × ℚ) → Bool
  | b, [] => b
  | b, (ev, _) :: rest =>
    match ev with
    | .parsed v => lastBelow cfg (decide (v < cfg.silence_threshold_db)) rest
    | _ => lastBelow cfg b rest

/-- A reading at or above the threshold resets the whole state and sends
    "up" exactly when the alert flag was set (lines 146-165). -/
theorem step_parsed_above (cfg : Config) (st : MonitorState) (v now : ℚ)
    (hv : ¬ v < cfg.silence_threshold_db) :
    monitorStep cfg st (LoopEvent.parsed v) now =
      (⟨none, false, 0⟩, if st.is_silent then some Status.up else none) := by
  simp [monitorStep, hv]

/-- A below-threshold reading while the silence clock is running keeps the
    clock and fires the alert exactly when the debounce expires with the
    alert not yet sent (lines 127-145). -/
theorem step_parsed_below_some (cfg : Config) (t0 : ℚ) (b : Bool) (e : Nat) (v now : ℚ)
    (hv : v < cfg.silence_threshold_db) :
    monitorStep cfg ⟨some t0, b, e⟩ (LoopEvent.parsed v) now =
      (if cfg.silence_timeout_seconds ≤ now - t0 ∧ b = false then
        (⟨some t0, true, 0⟩, some Status.down)
      else
        (⟨some t0, b, 0⟩, none)) := by
  simp [monitorStep, hv]

/-- The first below-threshold reading of an episode starts the silence
    clock and, when the timeout is positive, sends nothing yet
    (lines 127-135). -/
theorem step_parsed_below_none (cfg : Config) (b : Bool) (e : Nat) (v now : ℚ)
    (hv : v < cfg.silence_threshold_db) (ht : 0 < cfg.silence_timeout_seconds) :
    monitorStep cfg ⟨none, b, e⟩ (LoopEvent.parsed v) now =
      (⟨some now, b, 0⟩, none) := by
  have hns : ¬ cfg.silence_timeout_seconds ≤ (0 : ℚ) := not_le.mpr ht
  simp [monitorStep, hv, sub_self, hns]

/-- Once the alert flag is set, further below-threshold readings change
    nothing visible: the clock stays, the flag stays, nothing is sent. -/
theorem run_below_silent (cfg : Config) (v t0 : ℚ)
    (hv : v < cfg.silence_threshold_db) (ts : List ℚ) : ∀ e : Nat,
    monitorRun cfg ⟨some t0, true, e⟩ (belowTrace v ts) =
      (⟨some t0, true, if ts.isEmpty then e else 0⟩, []) := by
  induction ts with
  | nil => intro e; simp [belowTrace, monitorRun]
  | cons t ts ih =>
    intro e
    have hstep := step_parsed_below_some cfg t0 true e v t hv
    rw [if_neg (by simp)] at hstep
    simp [belowTrace, monitorRun, hstep]
    simpa [belowTrace] using ih 0

/-- From a running silence clock with the alert not yet sent, a run of
    below-threshold readings sends exactly one "down" — at the first
    reading whose elapsed time meets the timeout — and none at all
    otherwise. -/
theorem run_below_unsent (cfg : Config) (v t0 : ℚ)
    (hv : v < cfg.silence_threshold_db) (ts : List ℚ) : ∀ e : Nat,
    monitorRun cfg ⟨some t0, false, e⟩ (belowTrace v ts) =
      (⟨some t0, ts.any (fun t => decide (cfg.silence_timeout_seconds ≤ t - t0)),
          if ts.isEmpty then e else 0⟩,
        if ts.any (fun t => decide (cfg.silence_timeout_seconds ≤ t - t0)) then
          [Status.down] else []) := by
  induction ts with
  | nil => intro e; simp [belowTrace, monitorRun]
  | cons t ts ih =>
    intro e
    have hstep := step_parsed_below_some cfg t0 false e v t hv
    by_cases hc : cfg.silence_timeout_seconds ≤ t - t0
    · rw [if_pos ⟨hc, rfl⟩] at hstep
      have h2 : monitorRun cfg ⟨some t0, true, 0⟩
          (List.map (fun t => (LoopEvent.parsed v, t)) ts) = (⟨some t0, true, 0⟩, []) := by
        simpa [belowTrace] using run_below_silent cfg v t0 hv ts 0
      simp [belowTrace, monitorRun, hstep, hc, h2]
    · rw [if_neg (by simp [hc])] at hstep
      have h2 := ih 0
      rw [ite_self] at h2
      simp only [belowTrace] at h2
      simp [belowTrace, monitorRun, hstep, hc, h2]

/-- A run of consecutive parse misses: the error counter adds the length
    of the run, the silence clock is untouched, and exactly one "down" is
    sent — at the miss that brings the counter to
    `max_consecutive_errors` — provided the alert flag was not already
    set.  The hypothesis rules out the unreachable start states that are
    already over the limit without the flag set. -/
theorem run_miss (cfg : Config) (s : Option ℚ) (ts : List ℚ) :
    ∀ (b : Bool) (e : Nat), (b = false → e < max_consecutive_errors) →
    monitorRun cfg ⟨s, b, e⟩ (missTrace ts) =
      (⟨s, b || decide (max_consecutive_errors ≤ e + ts.length), e + ts.length⟩,
        if b = false ∧ max_consecutive_errors ≤ e + ts.length then [Status.down] else []) := by
  induction ts with
  | nil =>
    intro b e hbe
    cases b with
    | false =>
      simp [missTrace, monitorRun, Nat.not_le.mpr (hbe rfl)]
    | true => simp [missTrace, monitorRun]
  | cons t ts ih =>
    intro b e hbe
    cases b with
    | false =>
      by_cases hc : max_consecutive_errors ≤ e + 1
      · have hstep : monitorStep cfg ⟨s, false, e⟩ LoopEvent.parseMiss t =
            (⟨s, true, e + 1⟩, some Status.down) := by
          simp [monitorStep, escalateStep, hc]
        have h2 := ih true (e + 1) (by simp)
        simp only [missTrace] at h2
        have hc2 : max_consecutive_errors ≤ e + (ts.length + 1) := by omega
        simp [missTrace, monitorRun, hstep, h2, hc2, Nat.add_assoc, Nat.add_comm 1 ts.length]
      · have hstep : monitorStep cfg ⟨s, false, e⟩ LoopEvent.parseMiss t =
            (⟨s, false, e + 1⟩, none) := by
          simp [monitorStep, escalateStep, hc]
        have h2 := ih false (e + 1) (fun _ => Nat.lt_of_not_le hc)
        simp only [missTrace] at h2
        have harith : e + 1 + ts.length = e + (ts.length + 1) := by omega
        rw [harith] at h2
        simp [missTrace, monitorRun, hstep, h2]
    | true =>
      have hstep : monitorStep cfg ⟨s, true, e⟩ LoopEvent.parseMiss t =
          (⟨s, true, e + 1⟩, none) := by
        simp [monitorStep, escalateStep]
      have h2 := ih true (e + 1) (by simp)
      simp only [missTrace] at h2
      have harith : e + 1 + ts.length = e + (ts.length + 1) := by omega
      rw [harith] at h2
      simp [missTrace, monitorRun, hstep, h2]

/-- A run of readings all at or above the threshold, starting from the
    idle state: nothing is sent and the state stays idle. -/
theorem run_above (cfg : Config) (ps : List (ℚ × ℚ))
    (h : ∀ p ∈ ps, cfg.silence_threshold_db ≤ p.1) : ∀ e : Nat,
    monitorRun cfg ⟨none, false, e⟩ (readingTrace ps) =
      (⟨none, false, if ps.isEmpty then e else 0⟩, []) := by
  induction ps with
  | nil => intro e; simp [readingTrace, monitorRun]
  | cons p ps ih =>
    intro e
    have hv : ¬ p.1 < cfg.silence_threshold_db := not_lt.mpr (h p (by simp))
    have hstep := step_parsed_above cfg ⟨none, false, e⟩ p.1 p.2 hv
    rw [if_neg (by simp)] at hstep
    have h2 := ih (fun q hq => h q (by simp [hq])) 0
    rw [ite_self] at h2
    simp only [readingTrace] at h2
    simp [readingTrace, monitorRun, hstep, h2]

/-- A run of generic unexpected errors: the counter adds the length of the
    run and nothing else happens — in particular nothing is sent, whatever
    the counter's value. -/
theorem run_unexpected (cfg : Config) (s : Option ℚ) (b : Bool) (ts : List ℚ) :
    ∀ e : Nat,
    monitorRun cfg ⟨s, b, e⟩ (unexpectedTrace ts) = (⟨s, b, e + ts.length⟩, []) := by
  induction ts with
  | nil => intro e; simp [unexpectedTrace, monitorRun]
  | cons t ts ih =>
    intro e
    have h2 := ih (e + 1)
    simp only [unexpectedTrace] at h2
    have harith : e + 1 + ts.length = e + (ts.length + 1) := by omega
    rw [harith] at h2
    simp [unexpectedTrace, monitorRun, monitorStep, h2]

/-- The silence clock after one step on a parsed reading: started (kept)
    when the reading is below threshold, cleared when it is not. -/
theorem step_start_parsed (cfg : Config) (st : MonitorState) (v now : ℚ) :
    (monitorStep cfg st (LoopEvent.parsed v) now).1.silence_start_time =
      (if v < cfg.silence_threshold_db then
        some (st.silence_start_time.getD now) else none) := by
  by_cases hv : v < cfg.silence_threshold_db
  · simp only [monitorStep, if_pos hv]
    split <;> simp
  · simp [monitorStep, hv]

/-- No branch other than a parsed reading touches the silence clock. -/
theorem step_start_other (cfg : Config) (st : MonitorState) (ev : LoopEvent) (now : ℚ)
    (hev : isParsedReading ev = false) :
    (monitorStep cfg st ev now).1.silence_start_time = st.silence_start_time := by
  cases ev with
  | parsed v => simp [isParsedReading] at hev
  | parseMiss => simp only [monitorStep, escalateStep]; split <;> simp
  | timeoutExpired => simp only [monitorStep, escalateStep]; split <;> simp
  | subprocessError => simp only [monitorStep, escalateStep]; split <;> simp
  | unexpectedError => simp [monitorStep]

/-- Every branch on a parsed reading resets the consecutive-error counter
    to 0 (line 125 runs before any further decision). -/
theorem step_parsed_errors (cfg : Config) (st : MonitorState) (v now : ℚ) :
    (monitorStep cfg st (LoopEvent.parsed v) now).1.consecutive_errors = 0 := by
  by_cases hv : v < cfg.silence_threshold_db
  · simp only [monitorStep, if_pos hv]
    split <;> simp
  · simp [monitorStep, hv]

/-- Coupling invariant behind C7: along any trace, the silence clock is
    running exactly when the most recent parsed reading was below the
    threshold. -/
theorem run_start_lastBelow (cfg : Config) (tr : List (LoopEvent × ℚ)) :
    ∀ st : MonitorState,
    ((monitorRun cfg st tr).1.silence_start_time).isSome =
      lastBelow cfg st.silence_start_time.isSome tr := by
  induction tr with
  | nil => intro st; simp [monitorRun, lastBelow]
  | cons p tr ih =>
    intro st
    obtain ⟨ev, now⟩ := p
    cases ev with
    | parsed v =>
      by_cases hv : v < cfg.silence_threshold_db
      · have hst : (monitorStep cfg st (LoopEvent.parsed v) now).1.silence_start_time.isSome
            = true := by
          rw [step_start_parsed, if_pos hv]; rfl
        simp only [monitorRun, lastBelow]
        rw [ih, hst, decide_eq_true hv]
      · have hst : (monitorStep cfg st (LoopEvent.parsed v) now).1.silence_start_time.isSome
            = false := by
          rw [step_start_parsed, if_neg hv]; rfl
        simp only [monitorRun, lastBelow]
        rw [ih, hst, decide_eq_false hv]
    | parseMiss =>
      simp only [monitorRun, lastBelow]
      rw [ih, step_start_other _ _ _ _ (by simp [isParsedReading])]
    | timeoutExpired =>
      simp only [monitorRun, lastBelow]
      rw [ih, step_start_other _ _ _ _ (by simp [isParsedReading])]
    | subprocessError =>
      simp only [monitorRun, lastBelow]
      rw [ih, step_start_other _ _ _ _ (by simp [isParsedReading])]
    | unexpectedError =>
      simp only [monitorRun, lastBelow]
      rw [ih, step_start_other _ _ _ _ (by simp [isParsedReading])]

/-- C1 (amended): once the wall-clock time elapsed since the first
    below-threshold reading of an episode reaches the silence timeout —
    for `N` readings spaced one check interval `d` apart, once
    `(N - 1) * d >= silenceTimeout` — the run of the monitor loop over
    those `N` readings dispatches exactly one "down" notification
    (`SilenceAlert`), and no second one however long the silence
    continues. -/
theorem C1_exactly_one_alert (cfg : Config) (v d : ℚ) (N : Nat)
    (hv : v < cfg.silence_threshold_db)
    (ht : 0 < cfg.silence_timeout_seconds)
    (hd : 0 ≤ d)
    (halert : cfg.silence_timeout_seconds ≤ ((N : ℚ) - 1) * d) :
    (monitorRun cfg initState (silentTrace v d N)).2 = [Status.down] := by
  obtain ⟨M, rfl⟩ : ∃ M, N = M + 1 := by
    refine ⟨N - 1, ?_⟩
    rcases Nat.eq_zero_or_pos N with h0 | h0
    · exfalso
      rw [h0] at halert
      simp at halert
      have : ((0 : ℚ) - 1) * d ≤ 0 := mul_nonpos_of_nonpos_of_nonneg (by norm_num) hd
      nlinarith
    · omega
  have hM : 1 ≤ M := by
    by_contra hM0
    have hM : M = 0 := by omega
    subst hM
    have : ((0 + 1 : ℕ) : ℚ) - 1 = 0 := by norm_num
    rw [this, zero_mul] at halert
    exact absurd halert (not_le.mpr ht)
  have htr : silentTrace v d (M + 1) =
      (LoopEvent.parsed v, 0) ::
        belowTrace v ((List.range M).map (fun k : ℕ => ((k : ℚ) + 1) * d)) := by
    rw [silentTrace, belowTrace, List.range_succ_eq_map, List.map_cons, List.map_map,
      List.map_map]
    simp [Function.comp]
  have hstep := step_parsed_below_none cfg false 0 v 0 hv ht
  have hany : (((List.range M).map (fun k : ℕ => ((k : ℚ) + 1) * d)).any
      (fun t => decide (cfg.silence_timeout_seconds ≤ t - 0))) = true := by
    rw [List.any_eq_true]
    refine ⟨(((M - 1 : ℕ) : ℚ) + 1) * d,
      List.mem_map.mpr ⟨M - 1, List.mem_range.mpr (by omega), rfl⟩, ?_⟩
    rw [decide_eq_true_eq, sub_zero]
    have hcast : ((M - 1 : ℕ) : ℚ) + 1 = (M : ℚ) := by
      rw [Nat.cast_sub hM]
      norm_num
    rw [hcast]
    have h2 : ((M + 1 : ℕ) : ℚ) - 1 = (M : ℚ) := by push_cast; ring
    rw [h2] at halert
    exact halert
  have hrun := run_below_unsent cfg v 0 hv
    ((List.range M).map (fun k : ℕ => ((k : ℚ) + 1) * d)) 0
  rw [hany, if_pos rfl] at hrun
  rw [htr]
  simp [monitorRun, initState, hstep, hrun]

/-- C1 counterexample: with threshold −60 dB, timeout 10 s and check
    interval 5 s, a run observing N = 2 consecutive readings of −70 dB
    spaced one check interval apart satisfies N * checkInterval =
    10 >= silenceTimeout, yet the monitor dispatches no "down"
    notification at all — not exactly one. -/
theorem C1_counterexample :
    ((-70 : ℚ) < cfgA.silence_threshold_db) ∧
    ((2 : ℚ) * cfgA.check_interval_seconds ≥ cfgA.silence_timeout_seconds) ∧
    (monitorRun cfgA initState (silentTrace (-70) cfgA.check_interval_seconds 2)).2 = [] := by
  norm_num [monitorRun, monitorStep, silentTrace, cfgA, initState, List.range_succ]

/-- C1 witness: threshold −60 dB, timeout 10 s, interval 5 s, three
    readings of −70 dB at t = 0, 5, 10: elapsed (3−1)·5 = 10 >= 10, so
    exactly one "down" is dispatched. -/
theorem C1_witness :
    (monitorRun cfgA initState (silentTrace (-70) 5 3)).2 = [Status.down] :=
  C1_exactly_one_alert cfgA (-70) 5 3 (by norm_num [cfgA]) (by norm_num [cfgA])
    (by norm_num) (by norm_num [cfgA])

/-- C2 (amended): reaching `max_consecutive_errors` consecutive probe
    failures forces the silent verdict and dispatches the single "down"
    notification of the episode immediately upon crossing the
    failure-count threshold — it does not wait for the silence timeout,
    and the silence clock is never started by failures; any successfully
    parsed reading resets the failure counter to 0. -/
theorem C2_escalation_fires_immediately (cfg : Config) (ts : List ℚ) :
    ((monitorRun cfg initState (missTrace ts)).2 =
      if max_consecutive_errors ≤ ts.length then [Status.down] else []) ∧
    ((monitorRun cfg initState (missTrace ts)).1.is_silent
      = decide (max_consecutive_errors ≤ ts.length)) ∧
    ((monitorRun cfg initState (missTrace ts)).1.silence_start_time = none) ∧
    ((monitorRun cfg initState (missTrace ts)).1.consecutive_errors = ts.length) ∧
    (∀ (st : MonitorState) (v now : ℚ),
      (monitorStep cfg st (LoopEvent.parsed v) now).1.consecutive_errors = 0) := by
  have h := run_miss cfg none ts false 0 (by simp [max_consecutive_errors])
  rw [Nat.zero_add] at h
  simp only [Bool.false_or, eq_self_iff_true, true_and] at h
  refine ⟨?_, ?_, ?_, ?_, fun st v now => step_parsed_errors cfg st v now⟩ <;>
    simp [initState, h]
/-- C2 counterexample: five consecutive parse failures within 4 seconds
    (timeout 10 s): the "down" notification is dispatched at the fifth
    failure with the silence clock never started and far less than the
    silence timeout elapsed — not "only once the cumulative silent
    duration reaches the silence timeout". -/
theorem C2_counterexample :
    ((monitorRun cfgA initState (missTrace [0, 1, 2, 3, 4])).2 = [Status.down]) ∧
    ((monitorRun cfgA initState (missTrace [0, 1, 2, 3, 4])).1.silence_start_time = none) ∧
    ((4 : ℚ) - 0 < cfgA.silence_timeout_seconds) := by
  norm_num [monitorRun, monitorStep, escalateStep, missTrace, cfgA, initState,
    max_consecutive_errors]

/-- C2 witness: a run of five parse misses from the initial state emits
    exactly one "down", ends silent with the counter at 5 and the silence
    clock unset; a parsed reading resets the counter. -/
theorem C2_witness :
    (monitorRun cfgA initState (missTrace [10, 11, 12, 13, 14])).2 = [Status.down] ∧
    (monitorStep cfgA ⟨none, true, 5⟩ (LoopEvent.parsed (-30)) 15).1.consecutive_errors = 0 := by
  refine ⟨?_, (C2_escalation_fires_immediately cfgA []).2.2.2.2 ⟨none, true, 5⟩ (-30) 15⟩
  have h := (C2_escalation_fires_immediately cfgA [10, 11, 12, 13, 14]).1
  simpa [max_consecutive_errors] using h

/-- C3: after the SilenceAlert of the current episode has fired
    (`is_silent = true`), the first subsequent reading at or above the
    threshold dispatches exactly one "up" notification (RecoveryAlert)
    and resets the alert flag and the silence clock, so a later silence
    episode alerts again — as the concrete five-reading episode chain
    (down, up, down) shows. -/
theorem C3_recovery_alert (cfg : Config) (st : MonitorState) (v now : ℚ)
    (hs : st.is_silent = true) (hv : ¬ v < cfg.silence_threshold_db) :
    (monitorStep cfg st (LoopEvent.parsed v) now = (⟨none, false, 0⟩, some Status.up)) ∧
    ((monitorRun cfgA initState
      [(LoopEvent.parsed (-70), 0), (LoopEvent.parsed (-70), 10),
        (LoopEvent.parsed (-10), 15), (LoopEvent.parsed (-70), 20),
        (LoopEvent.parsed (-70), 30)]).2 = [Status.down, Status.up, Status.down]) := by
  constructor
  · rw [step_parsed_above cfg st v now hv, hs]
    simp
  · norm_num [monitorRun, monitorStep, cfgA, initState]

/-- C3 witness: a recovery reading of −10 dB at t = 15 while silent sends
    exactly one "up" and resets the state. -/
theorem C3_witness :
    monitorStep cfgA ⟨some 0, true, 0⟩ (LoopEvent.parsed (-10)) 15 =
      (⟨none, false, 0⟩, some Status.up) :=
  (C3_recovery_alert cfgA ⟨some 0, true, 0⟩ (-10) 15 rfl (by norm_num [cfgA])).1

/-- C4 (amended): over any run whose iterations all yield successfully
    parsed readings at or above the threshold (the comparison is strict
    `<`, so a reading equal to the threshold counts as audio present),
    the verdict remains Playing, the silence clock stays unset, and no
    notification — in particular no "down" — is ever dispatched. -/
theorem C4_playing_stays (cfg : Config) (ps : List (ℚ × ℚ))
    (h : ∀ p ∈ ps, cfg.silence_threshold_db ≤ p.1) :
    ((monitorRun cfg initState (readingTrace ps)).2 = []) ∧
    ((monitorRun cfg initState (readingTrace ps)).1.is_silent = false) ∧
    ((monitorRun cfg initState (readingTrace ps)).1.silence_start_time = none) := by
  have hr := run_above cfg ps h 0
  rw [ite_self] at hr
  simp [initState, hr]

/-- C4 counterexample: a run of five loop iterations that fail with probe
    timeouts contains no successfully parsed reading at all — so every
    parsed reading in it is (vacuously) at or above the threshold — yet a
    "down" notification is dispatched and the verdict ends Silent. -/
theorem C4_counterexample :
    ((((List.range 5).map (fun k : ℕ => (LoopEvent.timeoutExpired, (k : ℚ)))).all
      (fun p => !(isParsedReading p.1))) = true) ∧
    ((monitorRun cfgA initState
      ((List.range 5).map (fun k : ℕ => (LoopEvent.timeoutExpired, (k : ℚ))))).2
        = [Status.down]) ∧
    ((monitorRun cfgA initState
      ((List.range 5).map (fun k : ℕ => (LoopEvent.timeoutExpired, (k : ℚ))))).1.is_silent
        = true) := by
  norm_num [monitorRun, monitorStep, escalateStep, isParsedReading, cfgA, initState,
    List.range_succ, max_consecutive_errors]

/-- C4 witness: two readings at −10 dB and −60 dB (the latter exactly at
    the threshold, hence audio present) leave the verdict Playing and
    dispatch nothing. -/
theorem C4_witness :
    (monitorRun cfgA initState (readingTrace [(-10, 0), (-60, 5)])).2 = [] :=
  (C4_playing_stays cfgA [(-10, 0), (-60, 5)] (by norm_num [cfgA])).1

/-- C5 (amended): the loop sends no heartbeats at all; an "up" status is
    sent only as the RecoveryAlert — i.e. only on an iteration whose
    reading is at or above the threshold while the alert flag of a
    silence episode is still set, and sending it clears that flag. -/
theorem C5_no_heartbeats (cfg : Config) (st : MonitorState) (ev : LoopEvent) (now : ℚ)
    (h : (monitorStep cfg st ev now).2 = some Status.up) :
    st.is_silent = true ∧
    (∃ v, ev = LoopEvent.parsed v ∧ ¬ v < cfg.silence_threshold_db) ∧
    (monitorStep cfg st ev now).1.is_silent = false := by
  cases ev with
  | parsed v =>
    by_cases hv : v < cfg.silence_threshold_db
    · exfalso
      rcases st with ⟨s, b, e⟩
      cases s with
      | none =>
        simp only [monitorStep, if_pos hv] at h
        split at h <;> simp at h
      | some t0 =>
        rw [step_parsed_below_some cfg t0 b e v now hv] at h
        split at h <;> simp at h
    · rw [step_parsed_above cfg st v now hv] at h
      cases hs : st.is_silent with
      | false => rw [hs] at h; simp at h
      | true =>
        refine ⟨rfl, ⟨v, rfl, hv⟩, ?_⟩
        rw [step_parsed_above cfg st v now hv]
  | parseMiss =>
    exfalso; simp only [monitorStep, escalateStep] at h; split at h <;> simp at h
  | timeoutExpired =>
    exfalso; simp only [monitorStep, escalateStep] at h; split at h <;> simp at h
  | subprocessError =>
    exfalso; simp only [monitorStep, escalateStep] at h; split at h <;> simp at h
  | unexpectedError =>
    exfalso; simp [monitorStep] at h

/-- C5 counterexample: a run that stays Playing for 200 seconds (readings
    of −10 dB at t = 0, 100, 200, any heartbeat interval ≥ 1 s notwith-
    standing) dispatches no "up" notification at all — the orchestrator
    sends no heartbeats. -/
theorem C5_counterexample :
    ((monitorRun cfgA initState
      [(LoopEvent.parsed (-10), 0), (LoopEvent.parsed (-10), 100),
        (LoopEvent.parsed (-10), 200)]).2.count Status.up = 0) ∧
    ((monitorRun cfgA initState
      [(LoopEvent.parsed (-10), 0), (LoopEvent.parsed (-10), 100),
        (LoopEvent.parsed (-10), 200)]).1.is_silent = false) := by
  norm_num [monitorRun, monitorStep, cfgA, initState]

/-- C5 witness: while silent, a reading of −10 dB sends "up" once and
    clears the flag. -/
theorem C5_witness :
    (monitorStep cfgA ⟨some 0, true, 2⟩ (LoopEvent.parsed (-10)) 5).1.is_silent = false :=
  (C5_no_heartbeats cfgA ⟨some 0, true, 2⟩ (LoopEvent.parsed (-10)) 5
    (by norm_num [monitorStep, cfgA])).2.2

/-- C6 (amended): startup validation exits (non-zero) exactly for: missing
    stream URL, malformed or non-http(s) stream URL, non-empty malformed
    Uptime Kuma URL, non-positive timeout, or non-positive check interval.
    A positive (non-negative) silence threshold does NOT cause an exit: it
    only sets the warning flag of the `proceed` outcome. -/
theorem C6_validation (a : Args) :
    (mainValidate a = ValidateOutcome.exitErr ↔
      a.stream_url = none ∨
      (∃ u, a.stream_url = some u ∧ validate_url u = false) ∨
      (∃ k, a.uptime_kuma_url = some k ∧ validate_url k = false) ∨
      a.timeout ≤ 0 ∨ a.check_interval ≤ 0) ∧
    (∀ w, mainValidate a = ValidateOutcome.proceed w → (w = true ↔ 0 < a.threshold)) := by
  obtain ⟨su, ku, th, tmo, ci⟩ := a
  cases su with
  | none => simp [mainValidate]
  | some u =>
    cases ku with
    | none =>
      by_cases hu : validate_url u <;> by_cases h1 : tmo ≤ (0 : ℚ) <;>
        by_cases h2 : ci ≤ (0 : ℚ) <;>
        simp [mainValidate, kumaInvalid, hu, h1, h2]
    | some k =>
      by_cases hu : validate_url u <;> by_cases hk : validate_url k <;>
        by_cases h1 : tmo ≤ (0 : ℚ) <;> by_cases h2 : ci ≤ (0 : ℚ) <;>
        simp [mainValidate, kumaInvalid, hu, hk, h1, h2]

/-- C6 counterexample: a strictly positive silence threshold (+5 dB) with
    otherwise valid arguments does not exit — validation proceeds to the
    monitor loop, merely with the warning flag set. -/
theorem C6_counterexample :
    ((0 : ℚ) < 5) ∧
    (mainValidate ⟨some ⟨"http", "radio.example.com"⟩, none, 5, 10, 1⟩ =
      ValidateOutcome.proceed true) := by
  constructor
  · norm_num
  · decide

/-- C6 witness: a non-positive timeout makes validation exit. -/
theorem C6_witness :
    mainValidate ⟨some ⟨"http", "x"⟩, none, -60, 0, 1⟩ = ValidateOutcome.exitErr :=
  (C6_validation ⟨some ⟨"http", "x"⟩, none, -60, 0, 1⟩).1.mpr
    (Or.inr (Or.inr (Or.inr (Or.inl le_rfl))))

/-- C7 (amended): `silence_start_time` is non-null exactly when the most
    recent successfully parsed reading was below the threshold — not when
    the verdict/alert flag `is_silent` is set: the clock starts at the
    first below-threshold reading, before `is_silent` becomes true, and
    failure escalation sets `is_silent` without ever starting the clock. -/
theorem C7_clock_tracks_last_reading (cfg : Config) (tr : List (LoopEvent × ℚ)) :
    ((monitorRun cfg initState tr).1.silence_start_time).isSome = lastBelow cfg false tr := by
  have h := run_start_lastBelow cfg tr initState
  simpa [initState] using h

/-- C7 counterexample: after a single −70 dB reading at t = 0 (timeout
    10 s), the silence clock is set (`some 0`) while `is_silent` — the
    only Silent-verdict flag in the state — is still false: the claimed
    "non-null iff verdict Silent" invariant fails after one iteration. -/
theorem C7_counterexample :
    ((monitorRun cfgA initState [(LoopEvent.parsed (-70), 0)]).1.silence_start_time
      = some 0) ∧
    ((monitorRun cfgA initState [(LoopEvent.parsed (-70), 0)]).1.is_silent = false) := by
  norm_num [monitorRun, monitorStep, cfgA, initState]

/-- C8 (amended): the probe classification ignores the tool's exit code
    entirely: a completed probe whose stderr matches `mean_volume` is a
    Reading whatever the exit code; a failure arises only from a missing
    match, a timeout, or a subprocess error. -/
theorem C8_exit_code_ignored (rc rc2 : Int) (mv : Option ℚ) :
    (classifyProbe (ProbeResult.completed rc mv) =
      classifyProbe (ProbeResult.completed rc2 mv)) ∧
    (∀ v : ℚ, classifyProbe (ProbeResult.completed rc (some v)) = LoopEvent.parsed v) ∧
    (classifyProbe (ProbeResult.completed rc none) = LoopEvent.parseMiss) ∧
    (classifyProbe ProbeResult.timedOut = LoopEvent.timeoutExpired) ∧
    (classifyProbe ProbeResult.subprocessFailed = LoopEvent.subprocessError) := by
  cases mv <;> simp [classifyProbe]

/-- C8 counterexample: the probing tool exits with code 1 while its stderr
    still contains `mean_volume: -25.3 dB`: the loop takes the Reading
    branch with −25.3, not a Failure branch. -/
theorem C8_counterexample :
    (classifyProbe (ProbeResult.completed 1 (some (-253/10))) =
      LoopEvent.parsed (-253/10)) ∧
    ((1 : Int) ≠ 0) := by
  constructor
  · rfl
  · decide

/-- Any argument set with a non-positive check interval is rejected by the
    validation block (line 295-297). -/
theorem mainValidate_exit_of_nonpos_interval (a : Args) (h : a.check_interval ≤ 0) :
    mainValidate a = ValidateOutcome.exitErr := by
  obtain ⟨su, ku, th, tmo, ci⟩ := a
  cases su with
  | none => rfl
  | some u =>
    simp only [mainValidate]
    split_ifs <;> rfl

/-- C9 (amended): the probe timeout is the constant 30 s, so it exceeds
    the capture window only for accepted configurations whose check
    interval is below 30 s; validation itself guarantees only positivity. -/
theorem C9_probe_timeout_bound (a : Args)
    (hacc : mainValidate a ≠ ValidateOutcome.exitErr)
    (hlt : a.check_interval < 30) :
    0 < a.check_interval ∧ a.check_interval < probe_timeout_seconds := by
  constructor
  · by_contra hc
    exact hacc (mainValidate_exit_of_nonpos_interval a (not_lt.mp hc))
  · simpa [probe_timeout_seconds] using hlt

/-- C9 counterexample: a check interval of 30 s passes startup validation,
    yet the probe timeout (30 s) is not strictly greater than the
    requested capture window. -/
theorem C9_counterexample :
    (mainValidate ⟨some ⟨"http", "radio.example.com"⟩, none, -60, 10, 30⟩ ≠
      ValidateOutcome.exitErr) ∧
    ¬ ((⟨some ⟨"http", "radio.example.com"⟩, none, -60, 10, 30⟩ : Args).check_interval <
        probe_timeout_seconds) := by
  constructor
  · decide
  · norm_num [probe_timeout_seconds]

/-- C9 witness: with check interval 5 s the accepted configuration does
    satisfy `captureWindow < probeTimeout`. -/
theorem C9_witness :
    0 < (⟨some ⟨"http", "radio.example.com"⟩, none, -60, 10, 5⟩ : Args).check_interval ∧
    (⟨some ⟨"http", "radio.example.com"⟩, none, -60, 10, 5⟩ : Args).check_interval <
      probe_timeout_seconds :=
  C9_probe_timeout_bound ⟨some ⟨"http", "radio.example.com"⟩, none, -60, 10, 5⟩
    (by decide) (by norm_num)

/-- C10: the generic unexpected-error branch only increments the failure
    counter — it never sends anything, however large the counter; a whole
    run of unexpected errors crosses the escalation threshold silently;
    and a "down" can only be sent by a below-threshold reading or by the
    parse-miss / timeout / subprocess-error branches. -/
theorem C10_unexpected_errors_silent (cfg : Config) (st : MonitorState) (now : ℚ) :
    (monitorStep cfg st LoopEvent.unexpectedError now =
      (⟨st.silence_start_time, st.is_silent, st.consecutive_errors + 1⟩, none)) ∧
    (∀ ts : List ℚ,
      (monitorRun cfg initState (unexpectedTrace ts)).2 = [] ∧
      (monitorRun cfg initState (unexpectedTrace ts)).1.consecutive_errors = ts.length) ∧
    (∀ ev : LoopEvent, (monitorStep cfg st ev now).2 = some Status.down →
      ev = LoopEvent.parseMiss ∨ ev = LoopEvent.timeoutExpired ∨
        ev = LoopEvent.subprocessError ∨ ∃ v, ev = LoopEvent.parsed v) := by
  refine ⟨rfl, fun ts => ?_, fun ev h => ?_⟩
  · have h := run_unexpected cfg none false ts 0
    rw [Nat.zero_add] at h
    constructor <;> simp [initState, h]
  · cases ev with
    | parsed v => exact Or.inr (Or.inr (Or.inr ⟨v, rfl⟩))
    | parseMiss => exact Or.inl rfl
    | timeoutExpired => exact Or.inr (Or.inl rfl)
    | subprocessError => exact Or.inr (Or.inr (Or.inl rfl))
    | unexpectedError => exact absurd h (by simp [monitorStep])

/-- C10 witness: an unexpected error at counter 7 (already past the
    threshold 5) sends nothing; a parse miss, by contrast, is one of the
    branches that may send "down". -/
theorem C10_witness :
    (monitorStep cfgA ⟨none, false, 7⟩ LoopEvent.unexpectedError 3 =
      (⟨none, false, 8⟩, none)) ∧
    (LoopEvent.parseMiss = LoopEvent.parseMiss ∨
      LoopEvent.parseMiss = LoopEvent.timeoutExpired ∨
      LoopEvent.parseMiss = LoopEvent.subprocessError ∨
      ∃ v, LoopEvent.parseMiss = LoopEvent.parsed v) :=
  ⟨(C10_unexpected_errors_silent cfgA ⟨none, false, 7⟩ 3).1,
    (C10_unexpected_errors_silent cfgA ⟨none, false, 7⟩ 3).2.2 LoopEvent.parseMiss
      (by norm_num [monitorStep, escalateStep, max_consecutive_errors])⟩

end SilentSense
